import Mathlib

/-!
Verification of the ai-knowledge-assistant RAG pipeline.

Shallow embedding of the backend services:
* `IngestionService.ingestDocument` (backend/src/ingestion/ingestion.service.ts),
* `DocumentsService.uploadAndCreate` (backend/src/documents/documents.service.ts),
* `OpenRouterEmbeddings.embedDocuments` / `embedQuery`
  (backend/src/openrouter/openrouter.embeddings.ts),
* `ChatService.generateResponse` (backend/src/chat/chat.service.ts),
* `formatDocumentsAsString` (src/utils).

External collaborators (Supabase storage/database, the PDF loader, the text
splitter, the remote embedding and LLM APIs, the filesystem) are modelled as
oracles supplied through an environment record; the control flow, the error
wrapping and every observable effect of the service code are translated
statement by statement from the TypeScript source.
-/

namespace AIKA

/-! ## Data model (document.entity.ts, langchain Document, vectors table) -/

/-- Document metadata record (backend/src/documents/entities/document.entity.ts). -/
structure DocumentRecord where
  id : Nat
  fileName : String
  storagePath : String
  status : String
  deriving Repr, DecidableEq

/-- Default status of a fresh entity (`@Column({ default: 'PENDING' })`). -/
def defaultStatus : String := "PENDING"

/-- Status written by `DocumentsService.uploadAndCreate` (`status: 'UPLOADED'`). -/
def uploadedStatus : String := "UPLOADED"

/-- A langchain chunk: page content plus the metadata fields the service touches. -/
structure Chunk where
  pageContent : String
  metaDocumentId : Option Nat := none
  metaSource : Option String := none
  metaLoc : Option String := none
  deriving Repr, DecidableEq

/-- A row of the `vectors` table (embedding, content, metadata). -/
structure VectorRecord where
  embedding : List Int
  content : String
  metaDocumentId : Option Nat
  metaSource : Option String
  deriving Repr, DecidableEq

/-- The `chunksWithMetadata` map of `ingestDocument`: set `documentId` and
`source`, delete `loc`; the page content is untouched. -/
def withMetadata (doc : DocumentRecord) (c : Chunk) : Chunk :=
  { c with metaDocumentId := some doc.id
           metaSource := some doc.fileName
           metaLoc := none }

/-- JS preview `chunks[0].pageContent.substring(0, 200) + '...'` (taking JS code units as
characters). -/
def jsSubstringPreview (s : String) : String := s.take 200 ++ "..."

/-! ## DocumentsService.uploadAndCreate -/

/-- The Document record created at upload: status is the literal `'UPLOADED'`.
(documents.service.ts: `this.documentsRepository.create({..., status: 'UPLOADED'})`). -/
def uploadAndCreate (id : Nat) (fileName storagePath : String) : DocumentRecord :=
  { id := id, fileName := fileName, storagePath := storagePath,
    status := uploadedStatus }

/-! ## IngestionService.ingestDocument

Environment of one ingestion run: the outcome of each external step.
`download` is the Supabase storage download, `load` the PDF loader's pages,
`split` the text splitter, `embed` the batched embedding call, `storeOk`
whether `vectorStore.addVectors` succeeds, `cleanupOk` whether the
`fs.rm(tempDir, ...)` in the `finally` block succeeds. -/
structure IngestEnv where
  download : Except String (List Nat)
  load : Except String (List String)
  split : List String → List Chunk
  embed : List String → Except String (List (List Int))
  storeOk : Bool
  cleanupOk : Bool

/-- Result object returned on the success path of `ingestDocument`. -/
structure IngestResult where
  chunkCount : Nat
  firstChunkText : String
  deriving Repr, DecidableEq

/-- Observable side effects of one `ingestDocument` run:
status-column writes performed during the run, vector rows inserted,
whether the `finally` cleanup ran and whether the temp directory ended up
removed. -/
structure IngestEffects where
  statusWrites : List String
  vectorsAdded : List VectorRecord
  cleanupAttempted : Bool
  tempDirRemoved : Bool
  deriving Repr, DecidableEq

/-- The `try` block of `ingestDocument` (ingestion.service.ts):
download, write temp file, load pages, split into chunks, early `return;`
when `chunks.length === 0`, attach metadata, embed all chunk texts in one
batched call (failure rethrown as `OpenRouter API call failed: ...`),
`vectorStore.addVectors`, then build the result from `chunks.length` and
`chunks[0]`. Returns the value of the `try` block (`none` for the bare
`return;`) or the thrown error, together with the vector rows inserted. -/
def ingestTry (env : IngestEnv) (doc : DocumentRecord) :
    Except String (Option IngestResult) × List VectorRecord :=
  match env.download with
  | .error msg => (.error ("Supabase download error: " ++ msg), [])
  | .ok _ =>
    match env.load with
    | .error msg => (.error msg, [])
    | .ok pages =>
      match env.split pages with
      | [] => (.ok none, [])
      | c :: cs =>
        let chunksWithMetadata := (c :: cs).map (withMetadata doc)
        let texts := chunksWithMetadata.map (·.pageContent)
        match env.embed texts with
        | .error msg => (.error ("OpenRouter API call failed: " ++ msg), [])
        | .ok vectors =>
          match env.storeOk with
          | true =>
            (.ok (some { chunkCount := (c :: cs).length,
                         firstChunkText := jsSubstringPreview c.pageContent }),
             vectors.zipWith
               (fun v ch => { embedding := v, content := ch.pageContent,
                              metaDocumentId := ch.metaDocumentId,
                              metaSource := ch.metaSource })
               chunksWithMetadata)
          | false => (.error "addVectors failed", [])

/-- Full `ingestDocument`: the `try` block wrapped by the `catch` (which logs and
rethrows the constant `new Error('Ingestion process failed.')`) and the
`finally` block (which always attempts `fs.rm(tempDir, {recursive, force})`
and swallows any cleanup error). The service never touches
`document.status`, so `statusWrites` is empty on every path. -/
def ingestDocument (env : IngestEnv) (doc : DocumentRecord) :
    Except String (Option IngestResult) × IngestEffects :=
  let tryOut := ingestTry env doc
  let result : Except String (Option IngestResult) :=
    match tryOut.1 with
    | .ok v => .ok v
    | .error _ => .error "Ingestion process failed."
  (result,
   { statusWrites := []
     vectorsAdded := match tryOut.1 with
       | .ok _ => tryOut.2
       | .error _ => tryOut.2
     cleanupAttempted := true
     tempDirRemoved := env.cleanupOk })

/-- Status of the document after an ingestion run: the last status write of
the run, or the pre-run status when the run wrote none. -/
def finalStatus (env : IngestEnv) (doc : DocumentRecord) : String :=
  ((ingestDocument env doc).2.statusWrites.getLast?).getD doc.status

/-- True when `ingestDocument` handed the caller a result record. -/
def returnsRecord (r : Except String (Option IngestResult)) : Bool :=
  match r with
  | .ok (some _) => true
  | _ => false

/-- True when the run ended in a thrown error. -/
def runFailed (r : Except String (Option IngestResult)) : Bool :=
  match r with
  | .error _ => true
  | _ => false

/-! Concrete environments used to evaluate the model. -/

/-- One-chunk document whose embedding call fails with cause `boom`. -/
def embedFailEnv : IngestEnv :=
  { download := .ok [1]
    load := .ok ["page one"]
    split := fun _ => [{ pageContent := "hello world" }]
    embed := fun _ => .error "boom"
    storeOk := true
    cleanupOk := true }

/-- One-chunk document whose whole run succeeds. -/
def okEnv : IngestEnv :=
  { download := .ok [1]
    load := .ok ["page one"]
    split := fun _ => [{ pageContent := "hello world" }]
    embed := fun ts => .ok (ts.map (fun _ => [3, 4]))
    storeOk := true
    cleanupOk := true }

/-- Document whose extracted text yields zero chunks. -/
def emptyEnv : IngestEnv :=
  { download := .ok [1]
    load := .ok [""]
    split := fun _ => []
    embed := fun ts => .ok (ts.map (fun _ => [3, 4]))
    storeOk := true
    cleanupOk := true }

/-- The uploaded document all concrete runs use. -/
def sampleDoc : DocumentRecord := uploadAndCreate 7 "handbook.pdf" "uploads/1-handbook.pdf"

/-- Substring test on character lists (used to read the phrase
"an error wrapping the embedding cause" as: the cause text occurs in the
surfaced error message). -/
def listHasSub : List Char → List Char → Bool
  | [], sub => sub.isEmpty
  | h :: t, sub => sub.isPrefixOf (h :: t) || listHasSub t sub

/-- The surfaced error message mentions the given cause text. -/
def errorMentions (msg cause : String) : Bool :=
  listHasSub msg.toList cause.toList

/-! ## OpenRouterEmbeddings (openrouter.embeddings.ts)

The remote API (`client.embeddings.generate`) is an oracle mapping an input
text to the response's `data` array (or a transport error). -/

/-- One element of the response `data` array. -/
structure EmbeddingData where
  embedding : List Int
  deriving Repr, DecidableEq

/-- Single-query path `embedQuery(text)`: one remote call; an empty `data` array is turned into
the error `'OpenRouter returned no embedding'`, otherwise
`res.data[0].embedding` is returned; transport errors are rethrown. -/
def embedQuery (remote : String → Except String (List EmbeddingData))
    (text : String) : Except String (List Int) :=
  match remote text with
  | .error e => .error e
  | .ok [] => .error "OpenRouter returned no embedding"
  | .ok (d :: _) => .ok d.embedding

/-- Batched path `embedDocuments(texts)`: `texts.map(...)` schedules one limited task per
text, each running `embedQuery` and rewrapping a failure as
`Failed to embed text: "<first 20 chars>...": <cause>`; `Promise.all`
collects the vectors in input order (under `pLimit(1)` the tasks run one at
a time, so the sequential traversal is the exact semantics). -/
def embedDocuments (remote : String → Except String (List EmbeddingData)) :
    List String → Except String (List (List Int))
  | [] => .ok []
  | t :: ts =>
    match embedQuery remote t with
    | .error e =>
        .error ("Failed to embed text: \"" ++ t.take 20 ++ "...\": " ++ e)
    | .ok v =>
        match embedDocuments remote ts with
        | .error e => .error e
        | .ok vs => .ok (v :: vs)

/-- Texts for which `embedDocuments` creates a remote-calling task:
`texts.map(...)` creates one task per input text, so the task list is the
input list itself — in particular `embedDocuments([])` creates none. -/
def embedDocumentsRemoteCalls (texts : List String) : List String := texts

/-! ## The shared in-flight limiter (pLimit)

`OpenRouterEmbeddings` owns a single `rateLimiter = pLimit(1)`; every task of
every `embedDocuments` call of the (singleton) service runs under it. A run
of the limiter is a chronological trace of start/finish events of tasks
(tasks from concurrently ingested documents interleave in the same trace);
`pLimit(n)` only starts a task when fewer than `n` are active. -/

/-- The concurrency bound in the source: `pLimit(1)`. -/
def embedConcurrencyLimit : Nat := 1

/-- A start or finish of one limited task (the payload identifies the task). -/
inductive LimiterEvent where
  | start (task : Nat)
  | finish (task : Nat)
  deriving Repr, DecidableEq

/-- Number of in-flight tasks after consuming a trace, starting from `n`. -/
def inFlightAfter : Nat → List LimiterEvent → Nat
  | n, [] => n
  | n, .start _ :: es => inFlightAfter (n + 1) es
  | n, .finish _ :: es => inFlightAfter (n - 1) es

/-- Admission rule of `pLimit(limit)`, checked along the trace with `n` tasks
currently active: a start is only admitted while `n < limit`, a finish only
while a task is active. -/
def limiterOk (limit : Nat) : Nat → List LimiterEvent → Bool
  | _, [] => true
  | n, .start _ :: es => decide (n < limit) && limiterOk limit (n + 1) es
  | n, .finish _ :: es => decide (0 < n) && limiterOk limit (n - 1) es

/-- A trace the limiter can produce from an idle start. -/
def validTrace (limit : Nat) (es : List LimiterEvent) : Bool :=
  limiterOk limit 0 es

/-! ## ChatService.generateResponse (chat.service.ts) and src/utils -/

/-- A document row returned by the retriever (`pageContent` plus the
`metadata.source` field the service reads). -/
structure RetrievedDoc where
  pageContent : String
  metaSource : String
  deriving Repr, DecidableEq

/-- Context formatter `formatDocumentsAsString` (src/utils): join the page contents with a
blank line. -/
def formatDocumentsAsString (docs : List RetrievedDoc) : String :=
  String.intercalate "\n\n" (docs.map (·.pageContent))

/-- One entry of the returned `sourceDocuments` list. -/
structure SourceEntry where
  source : String
  content : String
  deriving Repr, DecidableEq

/-- Preview `doc.pageContent.substring(0, 200) + '...'` of one source. -/
def sourcePreview (d : RetrievedDoc) : String := d.pageContent.take 200 ++ "..."

/-- The map building one `sourceDocuments` entry from a retrieved document. -/
def mkSourceEntry (d : RetrievedDoc) : SourceEntry :=
  { source := d.metaSource, content := sourcePreview d }

/-- The RAG prompt: the fixed template of `generateResponse` with `context`
and `question` substituted. -/
def ragPrompt (context question : String) : String :=
  "\n    你是一个专业的问答助手。请严格根据下面提供的【上下文信息】来回答【用户的问题】。\n    如果【上下文信息】中没有提到与问题相关的内容，请回答：\"根据我所掌握的文档信息，我无法回答您的问题。\"\n\n    【上下文信息】：\n    "
    ++ context
    ++ "\n\n    【用户的问题】：\n    "
    ++ question ++ "\n    "

/-- The response shape `RagResponse` of chat.service.ts. -/
structure RagResponse where
  answer : String
  sourceDocuments : List SourceEntry
  deriving Repr, DecidableEq

/-- RAG entry point `generateResponse(query)`: the RAG chain retrieves once
(`retriever.pipe(formatDocumentsAsString)`) to build the prompt context and
invoke the LLM; a second, separate `retriever.invoke(query)` produces the
returned `sourceDocuments`. The retriever is an oracle indexed by the call
number (call 0 = chain retrieval, call 1 = sources retrieval), so the two
calls may disagree when retrieval is not deterministic. The second component
counts the retrieval calls made. -/
def generateResponse (retrieve : Nat → List RetrievedDoc)
    (llm : String → String) (query : String) : RagResponse × Nat :=
  let context := formatDocumentsAsString (retrieve 0)
  let answer := llm (ragPrompt context query)
  let sourceDocuments := retrieve 1
  ({ answer := answer, sourceDocuments := sourceDocuments.map mkSourceEntry }, 2)

/-- Order-preserving deduplication, keeping the first occurrence of each
entry (`seen` accumulates entries already emitted). Used only to state the
spec's reading of `sources` (the distinct pairs in retrieval order) against
the code's. -/
def dedupKeepFirst (seen : List SourceEntry) : List SourceEntry → List SourceEntry
  | [] => []
  | e :: es =>
    if e ∈ seen then dedupKeepFirst seen es
    else e :: dedupKeepFirst (e :: seen) es

/-- Modelled from the spec: `sources` as the distinct `(source, preview)`
pairs of the retrieved chunks, in retrieval order. -/
def specSources (docs : List RetrievedDoc) : List SourceEntry :=
  dedupKeepFirst [] (docs.map mkSourceEntry)

/-! ## Document formats (ingestion.service.ts, app/page.tsx) -/

/-- The upload formats the UI accepts (`accept=".pdf,.txt,.md"`). -/
inductive DocFormat where
  | pdf | txt | md
  deriving Repr, DecidableEq

/-- The two extraction behaviours the spec distinguishes. -/
inductive Loader where
  | pdfLoader
  | textPassthrough
  deriving Repr, DecidableEq

/-- The loader `ingestDocument` constructs for a document of the given
format: the source unconditionally builds `new PDFLoader(tempFilePath, ...)`
with no dispatch on the file's format. -/
def loaderFor (_fmt : DocFormat) : Loader := Loader.pdfLoader

/-- Modelled from the spec: format-specific extraction — page-segmented PDF
extraction for PDFs, plain-text passthrough otherwise. -/
def specLoaderFor : DocFormat → Loader
  | .pdf => .pdfLoader
  | _ => .textPassthrough

/-- The file-input accept list of the upload UI. -/
def acceptedUploadFormats : List String := [".pdf", ".txt", ".md"]

/-- PDF loader option `splitPages: true` (page-segmented loading). -/
def pdfSplitPages : Bool := true

/-! ## Concrete inputs used by counterexamples and witnesses -/

/-- A remote embedding oracle that always answers with the vector `[5]`. -/
def constRemote : String → Except String (List EmbeddingData) :=
  fun _ => .ok [{ embedding := [5] }]

/-- A deterministic retriever returning one fixed document on every call. -/
def constRetrieve : Nat → List RetrievedDoc :=
  fun _ => [{ pageContent := "refund policy", metaSource := "handbook.pdf" }]

/-- A retriever that returns the same document twice on every call. -/
def dupRetrieve : Nat → List RetrievedDoc :=
  fun _ => [{ pageContent := "refund policy", metaSource := "handbook.pdf" },
            { pageContent := "refund policy", metaSource := "handbook.pdf" }]

/-- The identity language model, used to evaluate the chat service. -/
def idLLM : String → String := fun s => s

/-- The result record of the successful run `okEnv`. -/
def ikRes : IngestResult := { chunkCount := 1, firstChunkText := "hello world..." }

/-- An interleaving of the limited tasks of two concurrently ingested
documents (tasks 0 and 1) through the shared limiter. -/
def sampleTrace : List LimiterEvent :=
  [.start 0, .finish 0, .start 1, .finish 1]

/-! ## Theorems -/

/-- Claim C1, counterexample: ingestion never drives the status state
machine. On a run whose embedding step fails, the ingestion run does fail,
yet the document's status stays `UPLOADED` — it is not set to `FAILED`; and
on a run that completes the vector-store step the status is not set to
`DONE` either. -/
theorem c1_counterexample :
    runFailed (ingestDocument embedFailEnv sampleDoc).1 = true ∧
    finalStatus embedFailEnv sampleDoc = "UPLOADED" ∧
    finalStatus embedFailEnv sampleDoc ≠ "FAILED" ∧
    returnsRecord (ingestDocument okEnv sampleDoc).1 = true ∧
    finalStatus okEnv sampleDoc ≠ "DONE" := by
  refine ⟨rfl, rfl, by decide, rfl, by decide⟩

/-- Claim C1, amended: `ingestDocument` performs no status writes at all;
the status a document has after any ingestion run — failed or successful —
is exactly the status it had before the run (`'UPLOADED'`, as written once
by `uploadAndCreate`). Neither `DONE` nor `FAILED` is ever stored. -/
theorem c1_no_status_transitions (env : IngestEnv) (doc : DocumentRecord) :
    (ingestDocument env doc).2.statusWrites = [] ∧
    finalStatus env doc = doc.status ∧
    (uploadAndCreate doc.id doc.fileName doc.storagePath).status = "UPLOADED" :=
  ⟨rfl, rfl, rfl⟩

/-- Claim C2, counterexample: on an embedding failure with cause `boom` the
caller receives the constant error `Ingestion process failed.`, whose
message does not mention the embedding cause at all — the surfaced error
does not wrap the cause (the zero-new-vectors half of the claim does hold). -/
theorem c2_counterexample :
    (ingestDocument embedFailEnv sampleDoc).1 = .error "Ingestion process failed." ∧
    errorMentions "Ingestion process failed." "boom" = false ∧
    (ingestDocument embedFailEnv sampleDoc).2.vectorsAdded = [] := by
  refine ⟨rfl, by decide, rfl⟩

/-- Claim C2, amended: a failure of the batched embedding call aborts the
whole document before `addVectors` is reached, so zero new vector records
are stored (all-or-nothing); the embedding cause is wrapped in the
intermediate `OpenRouter API call failed: ...` error, but the error
surfaced to the caller is the fixed `Ingestion process failed.` message. -/
theorem c2_embed_failure_all_or_nothing (env : IngestEnv) (doc : DocumentRecord)
    (bs : List Nat) (pages : List String) (c : Chunk) (cs : List Chunk) (cause : String)
    (hdl : env.download = .ok bs) (hld : env.load = .ok pages)
    (hsp : env.split pages = c :: cs)
    (hem : ∀ ts, env.embed ts = .error cause) :
    (ingestTry env doc).1 = .error ("OpenRouter API call failed: " ++ cause) ∧
    (ingestDocument env doc).1 = .error "Ingestion process failed." ∧
    (ingestDocument env doc).2.vectorsAdded = [] := by
  have ht : ingestTry env doc =
      (.error ("OpenRouter API call failed: " ++ cause), []) := by
    simp only [ingestTry, hdl, hld, hsp, hem]
  refine ⟨by rw [ht], ?_, ?_⟩ <;> simp only [ingestDocument, ht]

/-- Claim C2, witness: the amended theorem evaluated on the concrete
embedding-failure run. -/
theorem c2_witness :
    (ingestTry embedFailEnv sampleDoc).1 =
      .error ("OpenRouter API call failed: " ++ "boom") ∧
    (ingestDocument embedFailEnv sampleDoc).1 = .error "Ingestion process failed." ∧
    (ingestDocument embedFailEnv sampleDoc).2.vectorsAdded = [] :=
  c2_embed_failure_all_or_nothing embedFailEnv sampleDoc [1] ["page one"]
    { pageContent := "hello world" } [] "boom" rfl rfl rfl (fun _ => rfl)

/-- Claim C5, counterexample: on a document from which zero chunks are
extracted, `ingestDocument` completes without error but hands the caller no
result record at all (the bare `return;`), rather than a
record with `chunkCount = 0`. -/
theorem c5_counterexample :
    (ingestDocument emptyEnv sampleDoc).1 = .ok none ∧
    returnsRecord (ingestDocument emptyEnv sampleDoc).1 = false := by
  exact ⟨rfl, rfl⟩

/-- Claim C5, amended: when extraction produces zero chunks the run is not
an error (the empty document is logged, not failed) and stores no vectors,
but the success output is `undefined` — the `{chunkCount, firstChunkText}`
record is only produced when at least one chunk exists, so the caller does
not receive `chunkCount = 0`. -/
theorem c5_zero_chunks_returns_nothing (env : IngestEnv) (doc : DocumentRecord)
    (bs : List Nat) (pages : List String)
    (hdl : env.download = .ok bs) (hld : env.load = .ok pages)
    (hsp : env.split pages = []) :
    (ingestDocument env doc).1 = .ok none ∧
    (ingestDocument env doc).2.vectorsAdded = [] := by
  have ht : ingestTry env doc = (.ok none, []) := by
    simp only [ingestTry, hdl, hld, hsp]
  refine ⟨?_, ?_⟩ <;> simp only [ingestDocument, ht]

/-- Claim C5, witness: the amended theorem evaluated on the concrete
zero-chunk run. -/
theorem c5_witness :
    (ingestDocument emptyEnv sampleDoc).1 = .ok none ∧
    (ingestDocument emptyEnv sampleDoc).2.vectorsAdded = [] :=
  c5_zero_chunks_returns_nothing emptyEnv sampleDoc [1] [""] rfl rfl rfl

/-- Claim C6: on every exit path of `ingestDocument` — success, download
failure, extraction failure, embedding failure or storage failure — the
`finally` block attempts the cleanup and, when the removal succeeds, the
temporary directory (with the extraction file inside it) is removed; and a
failing cleanup does not mask the run's outcome: the returned result is the
same whatever the cleanup does. -/
theorem c6_cleanup_on_every_path (env : IngestEnv) (doc : DocumentRecord) (b : Bool) :
    (ingestDocument env doc).2.cleanupAttempted = true ∧
    (ingestDocument env doc).2.tempDirRemoved = env.cleanupOk ∧
    (ingestDocument { env with cleanupOk := b } doc).1 = (ingestDocument env doc).1 := by
  obtain ⟨dl, ld, sp, em, st, cl⟩ := env
  exact ⟨rfl, rfl, rfl⟩

/-- Claim C10: whenever `ingestDocument` hands the caller a result record,
the chunk list of the run was non-empty — the record's `chunkCount` is
positive and its `firstChunkText` is built from the head chunk, so the
`chunks[0]` access on the success path is always within bounds. -/
theorem c10_result_from_nonempty_chunks (env : IngestEnv) (doc : DocumentRecord)
    (r : IngestResult)
    (h : (ingestDocument env doc).1 = .ok (some r)) :
    0 < r.chunkCount ∧
    ∃ pages c cs, env.load = .ok pages ∧ env.split pages = c :: cs ∧
      r.chunkCount = cs.length + 1 ∧
      r.firstChunkText = jsSubstringPreview c.pageContent := by
  cases hdl : env.download with
  | error msg =>
    simp only [ingestDocument, ingestTry, hdl] at h
    exact absurd h (by simp)
  | ok bs =>
    cases hld : env.load with
    | error msg =>
      simp only [ingestDocument, ingestTry, hdl, hld] at h
      exact absurd h (by simp)
    | ok pages =>
      cases hsp : env.split pages with
      | nil =>
        simp only [ingestDocument, ingestTry, hdl, hld, hsp] at h
        exact absurd h (by simp)
      | cons c cs =>
        cases hem : env.embed (((c :: cs).map (withMetadata doc)).map (·.pageContent)) with
        | error msg =>
          simp only [ingestDocument, ingestTry, hdl, hld, hsp, hem] at h
          exact absurd h (by simp)
        | ok vectors =>
          cases hst : env.storeOk with
          | false =>
            simp only [ingestDocument, ingestTry, hdl, hld, hsp, hem, hst] at h
            exact absurd h (by simp)
          | true =>
            simp only [ingestDocument, ingestTry, hdl, hld, hsp, hem, hst] at h
            have h2 : ({ chunkCount := (c :: cs).length,
                         firstChunkText := jsSubstringPreview c.pageContent } :
                       IngestResult) = r := by
              injection h with h1
              injection h1 with h2
            subst h2
            exact ⟨Nat.succ_pos _, pages, c, cs, rfl, hsp, by simp, rfl⟩

/-- Claim C3: `embedDocuments` on the empty list returns the empty vector
list and schedules no remote-calling task; and whenever every per-text call
succeeds it returns exactly one vector per input text, in input order. -/
theorem c3_embed_length_order (remote : String → Except String (List EmbeddingData))
    (texts : List String) :
    (embedDocuments remote [] = .ok [] ∧
      embedDocumentsRemoteCalls [] = ([] : List String)) ∧
    ((∀ t ∈ texts, ∃ v, embedQuery remote t = .ok v) →
      ∃ vs, embedDocuments remote texts = .ok vs ∧ vs.length = texts.length ∧
        ∀ (i : Nat) (hi : i < texts.length) (hv : i < vs.length),
          embedQuery remote (texts.get ⟨i, hi⟩) = .ok (vs.get ⟨i, hv⟩)) := by
  refine ⟨⟨rfl, rfl⟩, ?_⟩
  induction texts with
  | nil => exact fun _ => ⟨[], rfl, rfl, fun i hi _ => absurd hi (Nat.not_lt_zero i)⟩
  | cons t ts ih =>
    intro h
    obtain ⟨v, hv⟩ := h t (List.mem_cons_self t ts)
    obtain ⟨vs, hvs, hlen, hidx⟩ := ih (fun u hu => h u (List.mem_cons_of_mem t hu))
    refine ⟨v :: vs, ?_, by simp [hlen], ?_⟩
    · simp only [embedDocuments, hv, hvs]
    · intro i hi hv'
      cases i with
      | zero => simpa using hv
      | succ n =>
        simpa using hidx n (Nat.lt_of_succ_lt_succ hi) (Nat.lt_of_succ_lt_succ hv')

/-- Claim C3, witness: the theorem evaluated on a two-text batch against an
always-succeeding remote oracle. -/
theorem c3_witness :
    ∃ vs, embedDocuments constRemote ["alpha", "beta"] = .ok vs ∧
      vs.length = (["alpha", "beta"] : List String).length ∧
      ∀ (i : Nat) (hi : i < (["alpha", "beta"] : List String).length)
        (hv : i < vs.length),
        embedQuery constRemote ((["alpha", "beta"] : List String).get ⟨i, hi⟩) =
          .ok (vs.get ⟨i, hv⟩) :=
  (c3_embed_length_order constRemote ["alpha", "beta"]).2
    (fun _ _ => ⟨[5], rfl⟩)

/-- Along any trace the `pLimit` admission rule accepts, the in-flight count
never exceeds the limit (checked at every prefix of the trace). -/
theorem limiterOk_le (limit : Nat) (es : List LimiterEvent) :
    ∀ n k, limiterOk limit n es = true → n ≤ limit →
      inFlightAfter n (es.take k) ≤ limit := by
  induction es with
  | nil => intro n k _ hn; cases k <;> exact hn
  | cons e es ih =>
    intro n k h hn
    cases k with
    | zero => exact hn
    | succ k =>
      cases e with
      | start id =>
        simp only [limiterOk, Bool.and_eq_true, decide_eq_true_eq] at h
        exact ih (n + 1) k h.2 h.1
      | finish id =>
        simp only [limiterOk, Bool.and_eq_true, decide_eq_true_eq] at h
        exact ih (n - 1) k h.2 (Nat.le_trans (Nat.sub_le n 1) hn)

/-- Claim C7: the shared limiter is configured with `K = 1` (`pLimit(1)`),
and along any trace of task starts and finishes the limiter admits —
whatever interleaving of tasks from concurrently ingested documents it
carries — at most one remote embedding call is in flight at every moment. -/
theorem c7_limiter_bound (es : List LimiterEvent)
    (h : validTrace embedConcurrencyLimit es = true) :
    embedConcurrencyLimit = 1 ∧
    ∀ k, inFlightAfter 0 (es.take k) ≤ embedConcurrencyLimit :=
  ⟨rfl, fun k => limiterOk_le embedConcurrencyLimit es 0 k h (Nat.zero_le _)⟩

/-- Claim C7, witness: the theorem evaluated on an admitted interleaving of
the tasks of two concurrently ingested documents. -/
theorem c7_witness :
    embedConcurrencyLimit = 1 ∧
    ∀ k, inFlightAfter 0 (sampleTrace.take k) ≤ embedConcurrencyLimit :=
  c7_limiter_bound sampleTrace (by decide)

set_option maxRecDepth 8192 in
/-- Claim C4, counterexample: when the retriever returns the same chunk
twice, `generateResponse` returns the duplicated `(source, preview)` pair
twice — the sources are not the distinct pairs the claim describes. -/
theorem c4_counterexample :
    (generateResponse dupRetrieve idLLM "what is the refund policy?").1.sourceDocuments ≠
      specSources (dupRetrieve 1) := by
  decide

/-- Claim C4, amended: `generateResponse` returns one `(source, preview)`
pair per retrieved chunk, in retrieval order, without deduplication; each
preview is the chunk text truncated to the fixed 200-character budget with
the `...` marker appended. -/
theorem c4_sources_every_pair (retrieve : Nat → List RetrievedDoc)
    (llm : String → String) (query : String) :
    (generateResponse retrieve llm query).1.sourceDocuments =
      (retrieve 1).map mkSourceEntry ∧
    (∀ d, mkSourceEntry d =
      { source := d.metaSource, content := d.pageContent.take 200 ++ "..." }) :=
  ⟨rfl, fun _ => rfl⟩

/-- Claim C9: `generateResponse` performs retrieval twice per query — once
for the prompt context, once for the returned sources. When retrieval is
deterministic (every call returns the same ordered result) the returned
sources are exactly the pairs of the documents whose texts were formatted
into the prompt context; with a nondeterministic retriever the sources can
diverge from the context documents. -/
theorem c9_two_retrievals (retrieve : Nat → List RetrievedDoc)
    (llm : String → String) (query : String) :
    (generateResponse retrieve llm query).2 = 2 ∧
    ((∀ i j : Nat, retrieve i = retrieve j) →
      (generateResponse retrieve llm query).1.sourceDocuments =
        (retrieve 0).map mkSourceEntry ∧
      (generateResponse retrieve llm query).1.answer =
        llm (ragPrompt (formatDocumentsAsString (retrieve 0)) query)) ∧
    (∃ (r : Nat → List RetrievedDoc) (l : String → String) (s : String),
      r 0 ≠ r 1 ∧
      (generateResponse r l s).1.sourceDocuments ≠ (r 0).map mkSourceEntry) := by
  refine ⟨rfl, ?_, ?_⟩
  · intro hdet
    refine ⟨?_, rfl⟩
    show (retrieve 1).map mkSourceEntry = (retrieve 0).map mkSourceEntry
    rw [hdet 1 0]
  · refine ⟨fun i => if i = 0 then [] else [{ pageContent := "a", metaSource := "s" }],
      fun s => s, "", ?_, ?_⟩ <;> decide

/-- Claim C9, witness: the theorem evaluated on a deterministic retriever. -/
theorem c9_witness :
    (generateResponse constRetrieve idLLM "q").1.sourceDocuments =
      (constRetrieve 0).map mkSourceEntry ∧
    (generateResponse constRetrieve idLLM "q").1.answer =
      idLLM (ragPrompt (formatDocumentsAsString (constRetrieve 0)) "q") :=
  (c9_two_retrievals constRetrieve idLLM "q").2.1 (fun _ _ => rfl)

/-- Claim C8, counterexample: the UI accepts `.txt` uploads, yet ingestion
does not pass plain text through — it constructs the PDF loader for every
document, with no dispatch on the format. -/
theorem c8_counterexample :
    ".txt" ∈ acceptedUploadFormats ∧
    loaderFor DocFormat.txt ≠ specLoaderFor DocFormat.txt ∧
    loaderFor DocFormat.txt = Loader.pdfLoader :=
  ⟨by decide, by decide, rfl⟩

/-- Claim C8, amended: uploads of PDF, plain-text and Markdown files are
accepted by the UI, but the backend applies the page-segmented PDF loader
(`splitPages: true`) to every document regardless of format; plain text is
not passed through unchanged. -/
theorem c8_pdf_loader_only (fmt : DocFormat) :
    loaderFor fmt = Loader.pdfLoader ∧
    acceptedUploadFormats = [".pdf", ".txt", ".md"] ∧
    pdfSplitPages = true :=
  ⟨rfl, rfl, rfl⟩

set_option maxRecDepth 8192 in
/-- Claim C10, witness: the theorem evaluated on the concrete successful
one-chunk run. -/
theorem c10_witness :
    0 < ikRes.chunkCount ∧
    ∃ pages c cs, okEnv.load = .ok pages ∧ okEnv.split pages = c :: cs ∧
      ikRes.chunkCount = cs.length + 1 ∧
      ikRes.firstChunkText = jsSubstringPreview c.pageContent :=
  c10_result_from_nonempty_chunks okEnv sampleDoc ikRes rfl

end AIKA
